import Mathlib

/-
Verification of the gridly coordinate / bounds / view layer.

The Rust source is embedded shallowly: `isize` becomes `Int`, fallible
functions return `Except`, the panic of the `Index` operator is modelled as
`Option.none`, and lazy iterators are modelled as the `List` of values they
yield. Structures and functions keep the source names (`check_row`,
`check_location`, `get_unchecked`, ...). The files src/src/location.rs,
src/src/grid.rs, src/gridly/src/grid/view.rs and view_mut.rs are the
authority; the few definitions from modules absent from src/ (vector.rs and
the gridly bounds/range modules) are marked "Modelled from the spec".
-/

/-- Row coordinate (src/src/location.rs, generated by the component template):
a signed integer along the vertical axis, newtype over `isize`. -/
structure Row where
  val : Int
deriving DecidableEq

/-- Column coordinate (src/src/location.rs, generated by the component
template): a signed integer along the horizontal axis. -/
structure Column where
  val : Int
deriving DecidableEq

/-- Modelled from the spec: vector.rs is not under src/. Per section 3, `Rows`
is the row-displacement quantity (a signed count of rows). -/
structure Rows where
  val : Int
deriving DecidableEq

/-- Modelled from the spec: vector.rs is not under src/. Per section 3,
`Columns` is the column-displacement quantity. -/
structure Columns where
  val : Int
deriving DecidableEq

/-- Modelled from the spec: vector.rs is not under src/. Per section 3, a
`Vector` is a (row-displacement, column-displacement) pair. -/
structure Vector where
  rows : Rows
  columns : Columns
deriving DecidableEq

/-- Modelled from the spec: the conversion of a row displacement into a
`Vector` (used by `Location::above`/`below` through `distance.into()`); a pure
row displacement has zero column displacement. -/
def Rows.toVector (d : Rows) : Vector := ⟨d, ⟨0⟩⟩

/-- Modelled from the spec: the conversion of a column displacement into a
`Vector` (used by `Location::left`/`right` through `distance.into()`). -/
def Columns.toVector (d : Columns) : Vector := ⟨⟨0⟩, d⟩

/-- Decidable equality for Except results, so that concrete bounds-check
outcomes can be evaluated. -/
instance {ε α : Type} [DecidableEq ε] [DecidableEq α] :
    DecidableEq (Except ε α)
  | Except.ok a, Except.ok b =>
    if h : a = b then Decidable.isTrue (by rw [h])
    else Decidable.isFalse (fun hh => h (Except.ok.inj hh))
  | Except.ok _, Except.error _ => Decidable.isFalse Except.noConfusion
  | Except.error _, Except.ok _ => Decidable.isFalse Except.noConfusion
  | Except.error d, Except.error e =>
    if h : d = e then Decidable.isTrue (by rw [h])
    else Decidable.isFalse (fun hh => h (Except.error.inj hh))

/-- A (Row, Column) pair identifying one cell (src/src/location.rs). -/
structure Location where
  row : Row
  column : Column
deriving DecidableEq

/-- Location::new (src/src/location.rs). -/
def Location.new (row : Row) (column : Column) : Location := ⟨row, column⟩

/-- Location::origin (src/src/location.rs). -/
def Location.origin : Location := Location.new ⟨0⟩ ⟨0⟩

/-- Row + Rows (the `Add` impl from the component template: adds the
displacement to the coordinate on the same axis). -/
def Row.add (r : Row) (d : Rows) : Row := ⟨r.val + d.val⟩

/-- Row - Rows (the `Sub` impl from the component template). -/
def Row.sub (r : Row) (d : Rows) : Row := ⟨r.val - d.val⟩

/-- Column + Columns (the `Add` impl from the component template). -/
def Column.add (c : Column) (d : Columns) : Column := ⟨c.val + d.val⟩

/-- Column - Columns (the `Sub` impl from the component template). -/
def Column.sub (c : Column) (d : Columns) : Column := ⟨c.val - d.val⟩

/-- Row::combine (src/src/location.rs): the template instance
`(self, other) => (self, other)`, so the Row is the first field. -/
def Row.combine (r : Row) (other : Column) : Location := Location.new r other

/-- Column::combine (src/src/location.rs): the template instance
`(self, other) => (other, self)`, so the arguments are swapped into
(row, column) order. -/
def Column.combine (c : Column) (other : Row) : Location := Location.new other c

/-- Row::from_location (src/src/location.rs): projects the row field. -/
def Row.from_location (loc : Location) : Row := loc.row

/-- Column::from_location (src/src/location.rs): projects the column field. -/
def Column.from_location (loc : Location) : Column := loc.column

/-- The Component capability (src/src/location.rs trait Component), reduced to
the decomposition direction used by `Location::get_component`. -/
class Component (T : Type) where
  from_location : Location → T

instance : Component Row := ⟨Row.from_location⟩

instance : Component Column := ⟨Column.from_location⟩

/-- Location::get_component (src/src/location.rs): `T::from_location(self)`. -/
def Location.get_component (loc : Location) (T : Type) [Component T] : T :=
  Component.from_location loc

/-- Location + Vector (src/src/location.rs `Add` impl):
`Location::new(self.row + rhs.rows, self.column + rhs.columns)`. -/
def Location.add (l : Location) (rhs : Vector) : Location :=
  Location.new (l.row.add rhs.rows) (l.column.add rhs.columns)

/-- Location - Vector (src/src/location.rs `Sub` impl). -/
def Location.sub (l : Location) (rhs : Vector) : Location :=
  Location.new (l.row.sub rhs.rows) (l.column.sub rhs.columns)

/-- Location::above (src/src/location.rs): `*self - distance.into()`. -/
def Location.above (l : Location) (distance : Rows) : Location :=
  l.sub distance.toVector

/-- Location::below (src/src/location.rs): `*self + distance.into()`. -/
def Location.below (l : Location) (distance : Rows) : Location :=
  l.add distance.toVector

/-- Location::left (src/src/location.rs): `*self - distance.into()`. -/
def Location.left (l : Location) (distance : Columns) : Location :=
  l.sub distance.toVector

/-- Location::right (src/src/location.rs): `*self + distance.into()`. -/
def Location.right (l : Location) (distance : Columns) : Location :=
  l.add distance.toVector

/-- RangeError (src/src/grid.rs): half-inclusive bounds error. TooLow carries
the inclusive minimum, TooHigh the exclusive maximum. -/
inductive RangeError (T : Type) where
  | TooLow (min : T)
  | TooHigh (max : T)
deriving DecidableEq

/-- LocationRangeError (src/src/grid.rs): a row-range error or a column-range
error, tagged by the failing axis. -/
inductive LocationRangeError where
  | Row (e : RangeError Row)
  | Column (e : RangeError Column)
deriving DecidableEq

/-- The GridBounds capability (src/src/grid.rs): the constants a grid reports.
The trait methods MUST be const for a given grid, so they are embedded as
fields of a structure. -/
structure GridBounds where
  root_row : Row
  root_column : Column
  num_rows : Rows
  num_columns : Columns

/-- GridBounds::root (src/src/grid.rs): `self.root_row() + self.root_column()`,
where Row + Column is Row::combine. -/
def GridBounds.root (g : GridBounds) : Location :=
  g.root_row.combine g.root_column

/-- GridBounds::dimensions (src/src/grid.rs): `self.num_rows() +
self.num_columns()` as a Vector. -/
def GridBounds.dimensions (g : GridBounds) : Vector :=
  ⟨g.num_rows, g.num_columns⟩

/-- GridBounds::check_row (src/src/grid.rs): TooLow if below root_row, then
TooHigh if at or above root_row + num_rows, else Ok with the row unchanged.
The `min_row` and `max_row` let-bindings of the source are inlined. -/
def GridBounds.check_row (g : GridBounds) (row : Row) :
    Except (RangeError Row) Row :=
  if row.val < g.root_row.val then
    Except.error (RangeError.TooLow g.root_row)
  else if (g.root_row.add g.num_rows).val ≤ row.val then
    Except.error (RangeError.TooHigh (g.root_row.add g.num_rows))
  else
    Except.ok row

/-- GridBounds::row_in_bounds (src/src/grid.rs). -/
def GridBounds.row_in_bounds (g : GridBounds) (row : Row) : Bool :=
  (g.check_row row).isOk

/-- GridBounds::check_column (src/src/grid.rs): symmetric to check_row. -/
def GridBounds.check_column (g : GridBounds) (column : Column) :
    Except (RangeError Column) Column :=
  if column.val < g.root_column.val then
    Except.error (RangeError.TooLow g.root_column)
  else if (g.root_column.add g.num_columns).val ≤ column.val then
    Except.error (RangeError.TooHigh (g.root_column.add g.num_columns))
  else
    Except.ok column

/-- GridBounds::column_in_bounds (src/src/grid.rs). -/
def GridBounds.column_in_bounds (g : GridBounds) (column : Column) : Bool :=
  (g.check_column column).isOk

/-- GridBounds::check_location (src/src/grid.rs): checks the row, then the
column, short-circuiting on the first failure through the question-mark
operator, whose From conversion tags the failing axis. -/
def GridBounds.check_location (g : GridBounds) (loc : Location) :
    Except LocationRangeError Location :=
  match g.check_row loc.row with
  | Except.error e => Except.error (LocationRangeError.Row e)
  | Except.ok _ =>
    match g.check_column loc.column with
    | Except.error e => Except.error (LocationRangeError.Column e)
    | Except.ok _ => Except.ok loc

/-- GridBounds::location_in_bounds (src/src/grid.rs). -/
def GridBounds.location_in_bounds (g : GridBounds) (location : Location) :
    Bool :=
  (g.check_location location).isOk

/-- The Grid capability (src/src/grid.rs trait Grid, and the gridly BaseGrid):
bounds plus the unchecked cell read of the storage collaborator. The Rust
`unsafe fn get_unchecked` has undefined behaviour out of bounds; the shallow
embedding makes it a total function whose out-of-bounds values are simply
whatever the field returns (no claim depends on them). -/
structure Grid (α : Type) extends GridBounds where
  get_unchecked : Location → α

/-- Grid::get (src/src/grid.rs): `self.check_location(location).map(move |loc|
unsafe { self.get_unchecked(&loc) })`. -/
def Grid.get (g : Grid α) (location : Location) :
    Except LocationRangeError α :=
  (g.toGridBounds.check_location location).map (fun loc => g.get_unchecked loc)

/-- Modelled from the spec: the gridly bounds module (the `GridBounds` used by
src/gridly/src/grid/view.rs, with its `BoundsError`) is not under src/. Per
sections 4.2 and 4.3 it performs the same row-then-column half-open check with
the same short-circuiting, so it is embedded with the same error type. -/
def GridBounds.view_check_location (g : GridBounds) (loc : Location) :
    Except LocationRangeError Location :=
  match g.check_row loc.row with
  | Except.error e => Except.error (LocationRangeError.Row e)
  | Except.ok _ =>
    match g.check_column loc.column with
    | Except.error e => Except.error (LocationRangeError.Column e)
    | Except.ok _ => Except.ok loc

/-- Grid::get of src/gridly/src/grid/view.rs: the same check-then-delegate
shape as src/src/grid.rs, written against the gridly bounds check. -/
def Grid.view_get (g : Grid α) (location : Location) :
    Except LocationRangeError α :=
  (g.toGridBounds.view_check_location location).map
    (fun loc => g.get_unchecked loc)

/-- Modelled from the spec: the gridly component `Range` (not under src/) is,
per section 3, the ordered half-open sequence of component values from the
root (inclusive) to root+extent (exclusive); embedded as the list it yields.
An extent that is not positive yields the empty sequence. -/
def rowRange (root : Row) (extent : Rows) : List Row :=
  (List.range extent.val.toNat).map (fun i : Nat => ⟨root.val + (i : Int)⟩)

/-- Modelled from the spec: the column-axis component Range, symmetric to
`rowRange`. -/
def columnRange (root : Column) (extent : Columns) : List Column :=
  (List.range extent.val.toNat).map (fun i : Nat => ⟨root.val + (i : Int)⟩)

/-- Modelled from the spec: `GridBounds::range()` for the row axis (the gridly
bounds module, not under src/): the valid row indices of the grid. -/
def GridBounds.row_axis_range (g : GridBounds) : List Row :=
  rowRange g.root_row g.num_rows

/-- Modelled from the spec: `GridBounds::range()` for the column axis. -/
def GridBounds.column_axis_range (g : GridBounds) : List Column :=
  columnRange g.root_column g.num_columns

/-- SingleView over a row (src/gridly/src/grid/view.rs `SingleView<G, Row>`,
the expansion of the one generic definition at the Row axis): a grid handle
plus the row index. The bare constructor is `new_unchecked`. -/
structure RowSingleView (α : Type) where
  grid : Grid α
  index : Row

/-- SingleView::new at the Row axis (src/gridly/src/grid/view.rs):
`grid.check_component(index).map(move |index| unsafe
{ Self::new_unchecked(grid, index) })`; check_component at the Row axis is
check_row. -/
def RowSingleView.new (grid : Grid α) (index : Row) :
    Except (RangeError Row) (RowSingleView α) :=
  (grid.toGridBounds.check_row index).map
    (fun index => RowSingleView.mk grid index)

/-- SingleView::get_unchecked at the Row axis (src/gridly/src/grid/view.rs):
`self.grid.get_unchecked(&self.index.combine(cross))`. -/
def RowSingleView.get_unchecked (sv : RowSingleView α) (cross : Column) : α :=
  sv.grid.get_unchecked (sv.index.combine cross)

/-- SingleView::get at the Row axis (src/gridly/src/grid/view.rs):
`self.grid.check_component(cross).map(move |cross| unsafe
{ self.get_unchecked(cross) })`; check_component at the cross (Column) axis is
check_column. -/
def RowSingleView.get (sv : RowSingleView α) (cross : Column) :
    Except (RangeError Column) α :=
  (sv.grid.toGridBounds.check_column cross).map
    (fun cross => sv.get_unchecked cross)

/-- SingleView::range at the Row axis (src/gridly/src/grid/view.rs):
`LocationRange::new(self.index, self.grid.range())`. The location Range is
modelled from the spec (section 4.4: the sequence of full Locations covered by
this single row), the gridly location range module being absent from src/. -/
def RowSingleView.range (sv : RowSingleView α) : List Location :=
  sv.grid.toGridBounds.column_axis_range.map (fun cross => sv.index.combine cross)

/-- SingleView::iter at the Row axis (src/gridly/src/grid/view.rs):
`self.range().map(move |loc| unsafe { grid.get_unchecked(&loc) })`. -/
def RowSingleView.iter (sv : RowSingleView α) : List α :=
  sv.range.map (fun loc => sv.grid.get_unchecked loc)

/-- SingleView::with_locations at the Row axis (src/gridly/src/grid/view.rs):
`self.range().map(move |loc| (loc, unsafe { grid.get_unchecked(&loc) }))`. -/
def RowSingleView.with_locations (sv : RowSingleView α) : List (Location × α) :=
  sv.range.map (fun loc => (loc, sv.grid.get_unchecked loc))

/-- SingleView::with_component at the Row axis (src/gridly/src/grid/view.rs):
`self.grid.range().map(move |cross| (cross, unsafe
{ grid.get_unchecked(&(cross.combine(index))) }))`. -/
def RowSingleView.with_component (sv : RowSingleView α) : List (Column × α) :=
  sv.grid.toGridBounds.column_axis_range.map
    (fun cross => (cross, sv.grid.get_unchecked (cross.combine sv.index)))

/-- The Index operator on a row SingleView (src/gridly/src/grid/view.rs):
`self.get(idx).unwrap_or_else(|_err| panic!(...))`. The panic is modelled as
`none`; a normal return is `some`. -/
def RowSingleView.index_op (sv : RowSingleView α) (idx : Column) : Option α :=
  match sv.get idx with
  | Except.ok x => some x
  | Except.error _ => none

/-- SingleView over a column (src/gridly/src/grid/view.rs
`SingleView<G, Column>`, the same generic definition at the Column axis). -/
structure ColumnSingleView (α : Type) where
  grid : Grid α
  index : Column

/-- SingleView::new at the Column axis: check_component is check_column. -/
def ColumnSingleView.new (grid : Grid α) (index : Column) :
    Except (RangeError Column) (ColumnSingleView α) :=
  (grid.toGridBounds.check_column index).map
    (fun index => ColumnSingleView.mk grid index)

/-- SingleView::get_unchecked at the Column axis:
`self.grid.get_unchecked(&self.index.combine(cross))`; Column::combine swaps
its arguments, so the accessed location is (cross, index). -/
def ColumnSingleView.get_unchecked (sv : ColumnSingleView α) (cross : Row) :
    α :=
  sv.grid.get_unchecked (sv.index.combine cross)

/-- SingleView::get at the Column axis: validates the cross (Row) value. -/
def ColumnSingleView.get (sv : ColumnSingleView α) (cross : Row) :
    Except (RangeError Row) α :=
  (sv.grid.toGridBounds.check_row cross).map
    (fun cross => sv.get_unchecked cross)

/-- SingleView::range at the Column axis: the Locations covered by this
column, one per valid row index. -/
def ColumnSingleView.range (sv : ColumnSingleView α) : List Location :=
  sv.grid.toGridBounds.row_axis_range.map (fun cross => sv.index.combine cross)

/-- SingleView::iter at the Column axis. -/
def ColumnSingleView.iter (sv : ColumnSingleView α) : List α :=
  sv.range.map (fun loc => sv.grid.get_unchecked loc)

/-- SingleView::with_locations at the Column axis. -/
def ColumnSingleView.with_locations (sv : ColumnSingleView α) :
    List (Location × α) :=
  sv.range.map (fun loc => (loc, sv.grid.get_unchecked loc))

/-- SingleView::with_component at the Column axis. -/
def ColumnSingleView.with_component (sv : ColumnSingleView α) :
    List (Row × α) :=
  sv.grid.toGridBounds.row_axis_range.map
    (fun cross => (cross, sv.grid.get_unchecked (cross.combine sv.index)))

/-- The Index operator on a column SingleView, panic modelled as `none`. -/
def ColumnSingleView.index_op (sv : ColumnSingleView α) (idx : Row) :
    Option α :=
  match sv.get idx with
  | Except.ok x => some x
  | Except.error _ => none

/-- View over all rows (src/gridly/src/grid/view.rs `View<G, Row>`): a handle
on the grid; the axis is the type. -/
structure RowsView (α : Type) where
  grid : Grid α

/-- View::get at the Row axis (src/gridly/src/grid/view.rs):
`SingleView::new(self.grid, index.into())`. -/
def RowsView.get (v : RowsView α) (index : Row) :
    Except (RangeError Row) (RowSingleView α) :=
  RowSingleView.new v.grid index

/-- View::iter at the Row axis (src/gridly/src/grid/view.rs):
`self.range().map(move |index| unsafe { SingleView::new_unchecked(grid,
index) })`. -/
def RowsView.iter (v : RowsView α) : List (RowSingleView α) :=
  v.grid.toGridBounds.row_axis_range.map
    (fun index => RowSingleView.mk v.grid index)

/-- View over all columns (src/gridly/src/grid/view.rs `View<G, Column>`). -/
structure ColumnsView (α : Type) where
  grid : Grid α

/-- View::get at the Column axis. -/
def ColumnsView.get (v : ColumnsView α) (index : Column) :
    Except (RangeError Column) (ColumnSingleView α) :=
  ColumnSingleView.new v.grid index

/-- View::iter at the Column axis. -/
def ColumnsView.iter (v : ColumnsView α) : List (ColumnSingleView α) :=
  v.grid.toGridBounds.column_axis_range.map
    (fun index => ColumnSingleView.mk v.grid index)

/-- Grid::rows (src/gridly/src/grid/view.rs): `self.view()`. -/
def Grid.rows (g : Grid α) : RowsView α := ⟨g⟩

/-- Grid::columns (src/gridly/src/grid/view.rs): `self.view()`. -/
def Grid.columns (g : Grid α) : ColumnsView α := ⟨g⟩

/-- Grid::row (src/gridly/src/grid/view.rs): `self.single_view(row.into())`,
which is SingleView::new. -/
def Grid.row (g : Grid α) (row : Row) :
    Except (RangeError Row) (RowSingleView α) :=
  RowSingleView.new g row

/-- Grid::column (src/gridly/src/grid/view.rs): `self.single_view(column)`. -/
def Grid.column (g : Grid α) (column : Column) :
    Except (RangeError Column) (ColumnSingleView α) :=
  ColumnSingleView.new g column

/-- GridMut::get_mut (src/gridly/src/grid/view_mut.rs): the same
check-then-delegate shape as the immutable get; the exclusive borrow is not
observable in a value-level embedding, so the returned cell is the one the
unchecked read yields. -/
def Grid.get_mut (g : Grid α) (location : Location) :
    Except LocationRangeError α :=
  (g.toGridBounds.check_location location).map (fun loc => g.get_unchecked loc)

/-- A concrete 3 by 4 grid rooted at the origin, storing the value
10*row + column at each cell: the scenario grid of spec section 8. -/
def exampleGrid : Grid Int where
  root_row := ⟨0⟩
  root_column := ⟨0⟩
  num_rows := ⟨3⟩
  num_columns := ⟨4⟩
  get_unchecked := fun loc => loc.row.val * 10 + loc.column.val

/-- The bounds of the example grid, as a plain GridBounds. -/
def exampleBounds : GridBounds := exampleGrid.toGridBounds

/-- A successful check_row returns its argument unchanged. -/
lemma check_row_ok_eq (g : GridBounds) (r r' : Row)
    (h : g.check_row r = Except.ok r') : r' = r := by
  unfold GridBounds.check_row at h
  split_ifs at h
  simp_all

/-- A successful check_column returns its argument unchanged. -/
lemma check_column_ok_eq (g : GridBounds) (c c' : Column)
    (h : g.check_column c = Except.ok c') : c' = c := by
  unfold GridBounds.check_column at h
  split_ifs at h
  simp_all

/-- check_row succeeds exactly on the half-open row interval. -/
lemma check_row_ok_iff (g : GridBounds) (r : Row) :
    g.check_row r = Except.ok r ↔
      g.root_row.val ≤ r.val ∧ r.val < g.root_row.val + g.num_rows.val := by
  unfold GridBounds.check_row
  simp only [Row.add]
  split_ifs <;> simp <;> omega

/-- check_column succeeds exactly on the half-open column interval. -/
lemma check_column_ok_iff (g : GridBounds) (c : Column) :
    g.check_column c = Except.ok c ↔
      g.root_column.val ≤ c.val ∧
        c.val < g.root_column.val + g.num_columns.val := by
  unfold GridBounds.check_column
  simp only [Column.add]
  split_ifs <;> simp <;> omega

/-- A successful check_location returns its argument unchanged. -/
lemma check_location_ok_eq (g : GridBounds) (l l' : Location)
    (h : g.check_location l = Except.ok l') : l' = l := by
  unfold GridBounds.check_location at h
  cases h1 : g.check_row l.row with
  | error e => rw [h1] at h; simp at h
  | ok r =>
    rw [h1] at h
    cases h2 : g.check_column l.column with
    | error e => rw [h2] at h; simp at h
    | ok c => rw [h2] at h; simp at h; exact h.symm

/-- C1: check_location returns Ok with the location unchanged exactly when the
row lies in [root_row, root_row + num_rows) and the column lies in
[root_column, root_column + num_columns); otherwise it returns some
LocationRangeError. -/
theorem check_location_ok_iff_in_bounds (g : GridBounds) (L : Location) :
    (g.check_location L = Except.ok L ↔
      (g.root_row.val ≤ L.row.val ∧
       L.row.val < g.root_row.val + g.num_rows.val ∧
       g.root_column.val ≤ L.column.val ∧
       L.column.val < g.root_column.val + g.num_columns.val)) ∧
    ((∃ e, g.check_location L = Except.error e) ↔
      ¬(g.root_row.val ≤ L.row.val ∧
        L.row.val < g.root_row.val + g.num_rows.val ∧
        g.root_column.val ≤ L.column.val ∧
        L.column.val < g.root_column.val + g.num_columns.val)) := by
  unfold GridBounds.check_location GridBounds.check_row GridBounds.check_column
  simp only [Row.add, Column.add]
  split_ifs <;> simp <;> omega

/-- C2: the boundary probes of the bounds contract. One row below the root is
TooLow carrying root_row; the row at root_row + num_rows is TooHigh carrying
that excluded boundary value itself. Symmetrically for columns. -/
theorem check_boundary_values (g : GridBounds)
    (hr : 0 ≤ g.num_rows.val) (hc : 0 ≤ g.num_columns.val) :
    g.check_row (g.root_row.sub ⟨1⟩) =
      Except.error (RangeError.TooLow g.root_row) ∧
    g.check_row (g.root_row.add g.num_rows) =
      Except.error (RangeError.TooHigh (g.root_row.add g.num_rows)) ∧
    g.check_column (g.root_column.sub ⟨1⟩) =
      Except.error (RangeError.TooLow g.root_column) ∧
    g.check_column (g.root_column.add g.num_columns) =
      Except.error (RangeError.TooHigh (g.root_column.add g.num_columns)) := by
  unfold GridBounds.check_row GridBounds.check_column
  simp only [Row.add, Row.sub, Column.add, Column.sub]
  refine ⟨?_, ?_, ?_, ?_⟩ <;>
    · split_ifs <;> first | rfl | (exfalso; omega)

/-- Witness for C2 at the example grid. -/
theorem check_boundary_values_witness :
    0 ≤ exampleBounds.num_rows.val ∧ 0 ≤ exampleBounds.num_columns.val ∧
    (exampleBounds.check_row (exampleBounds.root_row.sub ⟨1⟩) =
      Except.error (RangeError.TooLow exampleBounds.root_row) ∧
    exampleBounds.check_row (exampleBounds.root_row.add exampleBounds.num_rows) =
      Except.error (RangeError.TooHigh
        (exampleBounds.root_row.add exampleBounds.num_rows)) ∧
    exampleBounds.check_column (exampleBounds.root_column.sub ⟨1⟩) =
      Except.error (RangeError.TooLow exampleBounds.root_column) ∧
    exampleBounds.check_column
        (exampleBounds.root_column.add exampleBounds.num_columns) =
      Except.error (RangeError.TooHigh
        (exampleBounds.root_column.add exampleBounds.num_columns))) :=
  ⟨by decide, by decide,
    check_boundary_values exampleBounds (by decide) (by decide)⟩

/-- C6: combine and get_component round-trip on both axes, with
Column::combine swapping its arguments into (row, column) order. -/
theorem combine_get_component_round_trip (r : Row) (c : Column) :
    (r.combine c).row = r ∧ (r.combine c).column = c ∧
    c.combine r = r.combine c ∧
    (r.combine c).get_component Row = r ∧
    (r.combine c).get_component Column = c :=
  ⟨rfl, rfl, rfl, rfl, rfl⟩

/-- C9: check_location checks the row before the column and short-circuits,
so whenever the row check fails with e the location check reports the
row-tagged e, regardless of the column; on the 3 by 4 example grid the
location (3,0) gets the row-axis TooHigh(3) and (0,4) the column-axis
TooHigh(4). -/
theorem check_location_row_error_first (g : GridBounds) (L : Location)
    (e : RangeError Row) (h : g.check_row L.row = Except.error e) :
    g.check_location L = Except.error (LocationRangeError.Row e) ∧
    exampleBounds.check_location (Location.new ⟨3⟩ ⟨0⟩) =
      Except.error (LocationRangeError.Row (RangeError.TooHigh ⟨3⟩)) ∧
    exampleBounds.check_location (Location.new ⟨0⟩ ⟨4⟩) =
      Except.error (LocationRangeError.Column (RangeError.TooHigh ⟨4⟩)) := by
  refine ⟨?_, by decide, by decide⟩
  unfold GridBounds.check_location
  rw [h]

/-- Witness for C9: a location whose row and column are both out of bounds on
the example grid gets the row-axis error. -/
theorem check_location_row_error_first_witness :
    exampleBounds.check_row (Location.new ⟨3⟩ ⟨9⟩).row =
      Except.error (RangeError.TooHigh ⟨3⟩) ∧
    (exampleBounds.check_location (Location.new ⟨3⟩ ⟨9⟩) =
      Except.error (LocationRangeError.Row (RangeError.TooHigh ⟨3⟩)) ∧
    exampleBounds.check_location (Location.new ⟨3⟩ ⟨0⟩) =
      Except.error (LocationRangeError.Row (RangeError.TooHigh ⟨3⟩)) ∧
    exampleBounds.check_location (Location.new ⟨0⟩ ⟨4⟩) =
      Except.error (LocationRangeError.Column (RangeError.TooHigh ⟨4⟩))) :=
  ⟨by decide,
    check_location_row_error_first exampleBounds (Location.new ⟨3⟩ ⟨9⟩)
      (RangeError.TooHigh ⟨3⟩) (by decide)⟩

/-- C10: the directional helpers touch only their own axis — above/below
change the row by minus/plus the distance and leave the column fixed,
left/right change the column and leave the row fixed — and the two helpers of
each axis are mutually inverse. -/
theorem location_directional_helpers (L : Location) (d : Rows) (e : Columns) :
    (L.above d).column = L.column ∧ (L.above d).row.val = L.row.val - d.val ∧
    (L.below d).column = L.column ∧ (L.below d).row.val = L.row.val + d.val ∧
    (L.left e).row = L.row ∧ (L.left e).column.val = L.column.val - e.val ∧
    (L.right e).row = L.row ∧ (L.right e).column.val = L.column.val + e.val ∧
    (L.above d).below d = L ∧ (L.below d).above d = L ∧
    (L.left e).right e = L ∧ (L.right e).left e = L := by
  obtain ⟨⟨rv⟩, ⟨cv⟩⟩ := L
  simp [Location.above, Location.below, Location.left, Location.right,
    Location.add, Location.sub, Location.new, Row.add, Row.sub, Column.add,
    Column.sub, Rows.toVector, Columns.toVector]

/-- Reversing the first n naturals lists n-1, n-2, ..., 0. -/
lemma range_reverse_eq (n : Nat) :
    (List.range n).reverse = (List.range n).map (fun i => n - 1 - i) := by
  rw [List.range_eq_range', List.reverse_range']
  simp [List.range_eq_range']

/-- C4: rows().iter() yields exactly num_rows SingleViews whose indices are
root_row, root_row+1, ..., root_row+num_rows-1 in ascending order, and
reversing the sequence yields the same indices descending; symmetrically for
columns(). Grid dimensions are counts, so they are taken nonnegative. -/
theorem rows_columns_iter_exact {α : Type} (g : Grid α)
    (hr : 0 ≤ g.toGridBounds.num_rows.val)
    (hc : 0 ≤ g.toGridBounds.num_columns.val) :
    g.rows.iter.map RowSingleView.index =
      (List.range g.toGridBounds.num_rows.val.toNat).map
        (fun i : Nat => Row.mk (g.toGridBounds.root_row.val + (i : Int))) ∧
    (g.rows.iter.length : Int) = g.toGridBounds.num_rows.val ∧
    g.rows.iter.reverse.map RowSingleView.index =
      (List.range g.toGridBounds.num_rows.val.toNat).map
        (fun i : Nat => Row.mk (g.toGridBounds.root_row.val +
          (g.toGridBounds.num_rows.val - 1 - (i : Int)))) ∧
    g.columns.iter.map ColumnSingleView.index =
      (List.range g.toGridBounds.num_columns.val.toNat).map
        (fun i : Nat => Column.mk (g.toGridBounds.root_column.val + (i : Int))) ∧
    (g.columns.iter.length : Int) = g.toGridBounds.num_columns.val ∧
    g.columns.iter.reverse.map ColumnSingleView.index =
      (List.range g.toGridBounds.num_columns.val.toNat).map
        (fun i : Nat => Column.mk (g.toGridBounds.root_column.val +
          (g.toGridBounds.num_columns.val - 1 - (i : Int)))) := by
  have ha : g.rows.iter.map RowSingleView.index =
      (List.range g.toGridBounds.num_rows.val.toNat).map
        (fun i : Nat => Row.mk (g.toGridBounds.root_row.val + (i : Int))) := by
    unfold Grid.rows RowsView.iter GridBounds.row_axis_range rowRange
    dsimp only
    rw [List.map_map, List.map_map]
    rfl
  have hb : g.columns.iter.map ColumnSingleView.index =
      (List.range g.toGridBounds.num_columns.val.toNat).map
        (fun i : Nat => Column.mk (g.toGridBounds.root_column.val + (i : Int))) := by
    unfold Grid.columns ColumnsView.iter GridBounds.column_axis_range
      columnRange
    dsimp only
    rw [List.map_map, List.map_map]
    rfl
  refine ⟨ha, ?_, ?_, hb, ?_, ?_⟩
  · unfold Grid.rows RowsView.iter GridBounds.row_axis_range rowRange
    dsimp only
    rw [List.length_map, List.length_map, List.length_range]
    omega
  · rw [List.map_reverse, ha, ← List.map_reverse, range_reverse_eq,
      List.map_map]
    refine List.map_congr_left ?_
    intro i hi
    rw [List.mem_range] at hi
    simp only [Function.comp_apply, Row.mk.injEq]
    omega
  · unfold Grid.columns ColumnsView.iter GridBounds.column_axis_range
      columnRange
    dsimp only
    rw [List.length_map, List.length_map, List.length_range]
    omega
  · rw [List.map_reverse, hb, ← List.map_reverse, range_reverse_eq,
      List.map_map]
    refine List.map_congr_left ?_
    intro i hi
    rw [List.mem_range] at hi
    simp only [Function.comp_apply, Column.mk.injEq]
    omega

/-- Witness for C4 at the 3 by 4 example grid. -/
theorem rows_columns_iter_exact_witness :
    0 ≤ exampleGrid.toGridBounds.num_rows.val ∧
    0 ≤ exampleGrid.toGridBounds.num_columns.val ∧
    (exampleGrid.rows.iter.map RowSingleView.index =
      (List.range exampleGrid.toGridBounds.num_rows.val.toNat).map
        (fun i : Nat => Row.mk (exampleGrid.toGridBounds.root_row.val + (i : Int))) ∧
    (exampleGrid.rows.iter.length : Int) =
      exampleGrid.toGridBounds.num_rows.val ∧
    exampleGrid.rows.iter.reverse.map RowSingleView.index =
      (List.range exampleGrid.toGridBounds.num_rows.val.toNat).map
        (fun i : Nat => Row.mk (exampleGrid.toGridBounds.root_row.val +
          (exampleGrid.toGridBounds.num_rows.val - 1 - (i : Int)))) ∧
    exampleGrid.columns.iter.map ColumnSingleView.index =
      (List.range exampleGrid.toGridBounds.num_columns.val.toNat).map
        (fun i : Nat => Column.mk (exampleGrid.toGridBounds.root_column.val + (i : Int))) ∧
    (exampleGrid.columns.iter.length : Int) =
      exampleGrid.toGridBounds.num_columns.val ∧
    exampleGrid.columns.iter.reverse.map ColumnSingleView.index =
      (List.range exampleGrid.toGridBounds.num_columns.val.toNat).map
        (fun i : Nat => Column.mk (exampleGrid.toGridBounds.root_column.val +
          (exampleGrid.toGridBounds.num_columns.val - 1 - (i : Int))))) :=
  ⟨by decide, by decide,
    rows_columns_iter_exact exampleGrid (by decide) (by decide)⟩

/-- A checked row-view construction that succeeds yields the view of exactly
the requested index over the same grid, and that index passed check_row. -/
lemma row_view_new_ok {α : Type} (g : Grid α) (r : Row) (sv : RowSingleView α)
    (h : RowSingleView.new g r = Except.ok sv) :
    sv = RowSingleView.mk g r ∧ g.toGridBounds.check_row r = Except.ok r := by
  unfold RowSingleView.new at h
  cases h1 : g.toGridBounds.check_row r with
  | error e => rw [h1] at h; simp [Except.map] at h
  | ok r' =>
    have h2 := check_row_ok_eq _ _ _ h1
    subst h2
    rw [h1] at h
    simp [Except.map] at h
    exact ⟨h.symm, rfl⟩

/-- The column-view analogue of row_view_new_ok. -/
lemma column_view_new_ok {α : Type} (g : Grid α) (c : Column)
    (sv : ColumnSingleView α)
    (h : ColumnSingleView.new g c = Except.ok sv) :
    sv = ColumnSingleView.mk g c ∧
      g.toGridBounds.check_column c = Except.ok c := by
  unfold ColumnSingleView.new at h
  cases h1 : g.toGridBounds.check_column c with
  | error e => rw [h1] at h; simp [Except.map] at h
  | ok c' =>
    have h2 := check_column_ok_eq _ _ _ h1
    subst h2
    rw [h1] at h
    simp [Except.map] at h
    exact ⟨h.symm, rfl⟩

/-- Every member of the column axis range passes check_column. -/
lemma mem_columnRange_ok (g : GridBounds) (c : Column)
    (hm : c ∈ columnRange g.root_column g.num_columns) :
    g.check_column c = Except.ok c := by
  unfold columnRange at hm
  rw [List.mem_map] at hm
  obtain ⟨i, hi, rfl⟩ := hm
  rw [List.mem_range] at hi
  rw [check_column_ok_iff]
  dsimp only
  omega

/-- Every member of the row axis range passes check_row. -/
lemma mem_rowRange_ok (g : GridBounds) (r : Row)
    (hm : r ∈ rowRange g.root_row g.num_rows) :
    g.check_row r = Except.ok r := by
  unfold rowRange at hm
  rw [List.mem_map] at hm
  obtain ⟨i, hi, rfl⟩ := hm
  rw [List.mem_range] at hi
  rw [check_row_ok_iff]
  dsimp only
  omega

/-- With an already validated row, a location is in bounds exactly when its
column passes check_column. -/
lemma location_in_bounds_valid_row (g : GridBounds) (r : Row) (c : Column)
    (hr : g.check_row r = Except.ok r) :
    g.location_in_bounds (Location.mk r c) = (g.check_column c).isOk := by
  unfold GridBounds.location_in_bounds GridBounds.check_location
  dsimp only
  rw [hr]
  cases h2 : g.check_column c <;> simp [Except.isOk, Except.toBool]

/-- With an already validated column, a location is in bounds exactly when its
row passes check_row. -/
lemma location_in_bounds_valid_column (g : GridBounds) (r : Row) (c : Column)
    (hc : g.check_column c = Except.ok c) :
    g.location_in_bounds (Location.mk r c) = (g.check_row r).isOk := by
  unfold GridBounds.location_in_bounds GridBounds.check_location
  dsimp only
  cases h1 : g.check_row r with
  | error e => simp [Except.isOk, Except.toBool]
  | ok r' => rw [hc]; simp [Except.isOk, Except.toBool]

/-- C5: for a SingleView over an in-bounds row r, iter() yields exactly
num_columns cells, in ascending column order, each the one the grid stores at
(r, root_column + i); with_locations() pairs the same cells with the full
Locations (r, root_column), (r, root_column+1), and so on. -/
theorem row_view_iter_cells {α : Type} (g : Grid α) (r : Row)
    (sv : RowSingleView α) (h : Grid.row g r = Except.ok sv)
    (hc : 0 ≤ g.toGridBounds.num_columns.val) :
    sv.iter = (List.range g.toGridBounds.num_columns.val.toNat).map
      (fun i : Nat => g.get_unchecked
        (Location.mk r ⟨g.toGridBounds.root_column.val + (i : Int)⟩)) ∧
    (sv.iter.length : Int) = g.toGridBounds.num_columns.val ∧
    sv.with_locations =
      (List.range g.toGridBounds.num_columns.val.toNat).map
        (fun i : Nat =>
          (Location.mk r ⟨g.toGridBounds.root_column.val + (i : Int)⟩,
            g.get_unchecked
              (Location.mk r ⟨g.toGridBounds.root_column.val + (i : Int)⟩))) := by
  obtain ⟨hsv, hrow⟩ := row_view_new_ok g r sv h
  subst hsv
  refine ⟨?_, ?_, ?_⟩
  · unfold RowSingleView.iter RowSingleView.range GridBounds.column_axis_range
      columnRange
    dsimp only
    rw [List.map_map, List.map_map]
    rfl
  · unfold RowSingleView.iter RowSingleView.range GridBounds.column_axis_range
      columnRange
    dsimp only
    rw [List.length_map, List.length_map, List.length_map, List.length_range]
    omega
  · unfold RowSingleView.with_locations RowSingleView.range
      GridBounds.column_axis_range columnRange
    dsimp only
    rw [List.map_map, List.map_map]
    rfl

/-- Witness for C5: row 1 of the 3 by 4 example grid. -/
theorem row_view_iter_cells_witness :
    Grid.row exampleGrid ⟨1⟩ =
      Except.ok (RowSingleView.mk exampleGrid ⟨1⟩) ∧
    0 ≤ exampleGrid.toGridBounds.num_columns.val ∧
    ((RowSingleView.mk exampleGrid ⟨1⟩).iter =
      (List.range exampleGrid.toGridBounds.num_columns.val.toNat).map
        (fun i : Nat => exampleGrid.get_unchecked
          (Location.mk ⟨1⟩
            ⟨exampleGrid.toGridBounds.root_column.val + (i : Int)⟩)) ∧
    ((RowSingleView.mk exampleGrid ⟨1⟩).iter.length : Int) =
      exampleGrid.toGridBounds.num_columns.val ∧
    (RowSingleView.mk exampleGrid ⟨1⟩).with_locations =
      (List.range exampleGrid.toGridBounds.num_columns.val.toNat).map
        (fun i : Nat =>
          (Location.mk ⟨1⟩
              ⟨exampleGrid.toGridBounds.root_column.val + (i : Int)⟩,
            exampleGrid.get_unchecked
              (Location.mk ⟨1⟩
                ⟨exampleGrid.toGridBounds.root_column.val + (i : Int)⟩)))) :=
  ⟨rfl, by decide,
    row_view_iter_cells exampleGrid ⟨1⟩ (RowSingleView.mk exampleGrid ⟨1⟩)
      rfl (by decide)⟩

/-- C3: on any SingleView produced by a checked constructor (SingleView::new,
and hence View::get, Grid::row, Grid::column, which delegate to it), every
location handed to get_unchecked is in bounds: the whole iteration range of
the view is in bounds (covering iter and with_locations), the locations
with_component accesses are exactly that range (Column::combine swaps back to
the same cells), and the location the checked get accesses is in bounds
exactly when its per-element cross check passes. Both axes are covered. -/
theorem single_view_unchecked_in_bounds {α : Type} (g : Grid α)
    (r : Row) (sv : RowSingleView α) (c : Column)
    (cl : Column) (sv2 : ColumnSingleView α) (r2 : Row)
    (h : RowSingleView.new g r = Except.ok sv)
    (h2 : ColumnSingleView.new g cl = Except.ok sv2) :
    sv.range.all (fun loc => g.toGridBounds.location_in_bounds loc) = true ∧
    g.toGridBounds.column_axis_range.map
      (fun cross => cross.combine sv.index) = sv.range ∧
    g.toGridBounds.location_in_bounds (Location.mk sv.index c) =
      (g.toGridBounds.check_column c).isOk ∧
    sv2.range.all (fun loc => g.toGridBounds.location_in_bounds loc) = true ∧
    g.toGridBounds.row_axis_range.map
      (fun cross => cross.combine sv2.index) = sv2.range ∧
    g.toGridBounds.location_in_bounds (Location.mk r2 sv2.index) =
      (g.toGridBounds.check_row r2).isOk := by
  obtain ⟨hsv, hrow⟩ := row_view_new_ok g r sv h
  obtain ⟨hsv2, hcol⟩ := column_view_new_ok g cl sv2 h2
  subst hsv
  subst hsv2
  refine ⟨?_, rfl, ?_, ?_, rfl, ?_⟩
  · rw [List.all_eq_true]
    intro loc hloc
    unfold RowSingleView.range GridBounds.column_axis_range at hloc
    dsimp only at hloc
    rw [List.mem_map] at hloc
    obtain ⟨cr, hcr, rfl⟩ := hloc
    show g.toGridBounds.location_in_bounds (Location.mk r cr) = true
    rw [location_in_bounds_valid_row _ _ _ hrow, mem_columnRange_ok _ _ hcr]
    rfl
  · dsimp only
    exact location_in_bounds_valid_row _ _ _ hrow
  · rw [List.all_eq_true]
    intro loc hloc
    unfold ColumnSingleView.range GridBounds.row_axis_range at hloc
    dsimp only at hloc
    rw [List.mem_map] at hloc
    obtain ⟨cr, hcr, rfl⟩ := hloc
    show g.toGridBounds.location_in_bounds (Location.mk cr cl) = true
    rw [location_in_bounds_valid_column _ _ _ hcol, mem_rowRange_ok _ _ hcr]
    rfl
  · dsimp only
    exact location_in_bounds_valid_column _ _ _ hcol

/-- Witness for C3: row view 1 and column view 2 of the example grid, probed
with the out-of-range column 9 and row -1. -/
theorem single_view_unchecked_in_bounds_witness :
    RowSingleView.new exampleGrid ⟨1⟩ =
      Except.ok (RowSingleView.mk exampleGrid ⟨1⟩) ∧
    ColumnSingleView.new exampleGrid ⟨2⟩ =
      Except.ok (ColumnSingleView.mk exampleGrid ⟨2⟩) ∧
    ((RowSingleView.mk exampleGrid ⟨1⟩).range.all
      (fun loc => exampleGrid.toGridBounds.location_in_bounds loc) = true ∧
    exampleGrid.toGridBounds.column_axis_range.map
      (fun cross => cross.combine (RowSingleView.mk exampleGrid ⟨1⟩).index) =
      (RowSingleView.mk exampleGrid ⟨1⟩).range ∧
    exampleGrid.toGridBounds.location_in_bounds
        (Location.mk (RowSingleView.mk exampleGrid ⟨1⟩).index ⟨9⟩) =
      (exampleGrid.toGridBounds.check_column ⟨9⟩).isOk ∧
    (ColumnSingleView.mk exampleGrid ⟨2⟩).range.all
      (fun loc => exampleGrid.toGridBounds.location_in_bounds loc) = true ∧
    exampleGrid.toGridBounds.row_axis_range.map
      (fun cross => cross.combine (ColumnSingleView.mk exampleGrid ⟨2⟩).index) =
      (ColumnSingleView.mk exampleGrid ⟨2⟩).range ∧
    exampleGrid.toGridBounds.location_in_bounds
        (Location.mk ⟨-1⟩ (ColumnSingleView.mk exampleGrid ⟨2⟩).index) =
      (exampleGrid.toGridBounds.check_row ⟨-1⟩).isOk) :=
  ⟨rfl, rfl,
    single_view_unchecked_in_bounds exampleGrid ⟨1⟩
      (RowSingleView.mk exampleGrid ⟨1⟩) ⟨9⟩ ⟨2⟩
      (ColumnSingleView.mk exampleGrid ⟨2⟩) ⟨-1⟩ rfl rfl⟩

/-- C7: indexing a SingleView with an out-of-range cross-axis value panics
(modelled as none), while the get method with the same value returns the
recoverable TooLow or TooHigh error, with the half-open boundary payloads;
both axes covered. -/
theorem index_op_panics_get_recovers {α : Type} (g : Grid α) (r : Row)
    (c : Column) (cl : Column) (r2 : Row)
    (h : (g.toGridBounds.check_column c).isOk = false)
    (h2 : (g.toGridBounds.check_row r2).isOk = false) :
    (RowSingleView.mk g r).index_op c = none ∧
    (RowSingleView.mk g r).get c = Except.error
      (if c.val < g.toGridBounds.root_column.val then
        RangeError.TooLow g.toGridBounds.root_column
      else RangeError.TooHigh
        (g.toGridBounds.root_column.add g.toGridBounds.num_columns)) ∧
    (ColumnSingleView.mk g cl).index_op r2 = none ∧
    (ColumnSingleView.mk g cl).get r2 = Except.error
      (if r2.val < g.toGridBounds.root_row.val then
        RangeError.TooLow g.toGridBounds.root_row
      else RangeError.TooHigh
        (g.toGridBounds.root_row.add g.toGridBounds.num_rows)) := by
  have hg : (RowSingleView.mk g r).get c = Except.error
      (if c.val < g.toGridBounds.root_column.val then
        RangeError.TooLow g.toGridBounds.root_column
      else RangeError.TooHigh
        (g.toGridBounds.root_column.add g.toGridBounds.num_columns)) := by
    unfold RowSingleView.get
    unfold GridBounds.check_column at h ⊢
    split_ifs at h ⊢ with h1 h3 <;>
      first | rfl | simp [Except.isOk, Except.toBool] at h
  have hg2 : (ColumnSingleView.mk g cl).get r2 = Except.error
      (if r2.val < g.toGridBounds.root_row.val then
        RangeError.TooLow g.toGridBounds.root_row
      else RangeError.TooHigh
        (g.toGridBounds.root_row.add g.toGridBounds.num_rows)) := by
    unfold ColumnSingleView.get
    unfold GridBounds.check_row at h2 ⊢
    split_ifs at h2 ⊢ with h1 h3 <;>
      first | rfl | simp [Except.isOk, Except.toBool] at h2
  refine ⟨?_, hg, ?_, hg2⟩
  · unfold RowSingleView.index_op
    rw [hg]
  · unfold ColumnSingleView.index_op
    rw [hg2]

/-- Witness for C7: column 4 is too high and row -5 too low on the example
grid. -/
theorem index_op_panics_get_recovers_witness :
    (exampleGrid.toGridBounds.check_column ⟨4⟩).isOk = false ∧
    (exampleGrid.toGridBounds.check_row ⟨-5⟩).isOk = false ∧
    ((RowSingleView.mk exampleGrid ⟨0⟩).index_op ⟨4⟩ = none ∧
    (RowSingleView.mk exampleGrid ⟨0⟩).get ⟨4⟩ = Except.error
      (if (4 : Int) < exampleGrid.toGridBounds.root_column.val then
        RangeError.TooLow exampleGrid.toGridBounds.root_column
      else RangeError.TooHigh
        (exampleGrid.toGridBounds.root_column.add
          exampleGrid.toGridBounds.num_columns)) ∧
    (ColumnSingleView.mk exampleGrid ⟨0⟩).index_op ⟨-5⟩ = none ∧
    (ColumnSingleView.mk exampleGrid ⟨0⟩).get ⟨-5⟩ = Except.error
      (if (-5 : Int) < exampleGrid.toGridBounds.root_row.val then
        RangeError.TooLow exampleGrid.toGridBounds.root_row
      else RangeError.TooHigh
        (exampleGrid.toGridBounds.root_row.add
          exampleGrid.toGridBounds.num_rows))) :=
  ⟨by decide, by decide,
    index_op_panics_get_recovers exampleGrid ⟨0⟩ ⟨4⟩ ⟨0⟩ ⟨-5⟩
      (by decide) (by decide)⟩

/-- C8: the checked get is exactly check-then-delegate — it fails with e
exactly when check_location fails with e, succeeds exactly with the value the
unchecked read yields at the (unchanged) location, and the gridly view-layer
get and the mutable get have the very same behaviour. -/
theorem get_check_then_delegate {α : Type} (g : Grid α) (loc : Location)
    (e : LocationRangeError) (x : α) :
    (g.get loc = Except.error e ↔
      g.toGridBounds.check_location loc = Except.error e) ∧
    (g.get loc = Except.ok x ↔
      (g.toGridBounds.check_location loc = Except.ok loc ∧
       x = g.get_unchecked loc)) ∧
    g.view_get loc = g.get loc ∧
    g.get_mut loc = g.get loc := by
  refine ⟨?_, ?_, rfl, rfl⟩
  · cases h1 : g.toGridBounds.check_location loc with
    | error e2 => simp [Grid.get, h1, Except.map]
    | ok l' =>
      have h2 := check_location_ok_eq _ _ _ h1
      subst h2
      simp [Grid.get, h1, Except.map]
  · cases h1 : g.toGridBounds.check_location loc with
    | error e2 => simp [Grid.get, h1, Except.map]
    | ok l' =>
      have h2 := check_location_ok_eq _ _ _ h1
      subst h2
      simp [Grid.get, h1, Except.map, eq_comm]
